import Mathlib

/-!
Shallow embedding of the configuration/initialization pipeline and PV module
electrical model of the SolarPV-DER simulation utility
(`pvder/DER_components.py` and `pvder/specifications.py`).

Python dictionaries are modelled as association lists (`List (String × _)`)
preserving insertion order; Python floats are modelled as exact rationals;
fallible code returns `Except`.
-/

namespace PVDER

/-- Python runtime values that can appear in a keyword-argument dictionary or a
DER configuration dictionary: the value categories the argument specification
in `pvder/specifications.py` distinguishes. `none` is Python's `None`. -/
inductive PyVal where
  | str (s : String)
  | int (n : Int)
  | float (q : ℚ)
  | bool (b : Bool)
  | complex (re im : ℚ)
  | dict (entries : List (String × PyVal))
  | grid
  | none

/-- Python `v is None` on the modelled values. -/
def PyVal.isNone : PyVal → Bool
  | .none => true
  | _ => false

/-- The type annotations occurring in `DER_argument_spec`
(`pvder/specifications.py` lines 19-34): `string_type`, `(int,float)`,
`Grid`, `dict`, `complex`, `bool` and `float`. -/
inductive SpecType where
  | strT
  | intFloatT
  | gridT
  | dictT
  | complexT
  | boolT
  | floatT
deriving DecidableEq, Repr

/-- Python `isinstance` restricted to the values and type annotations above.
Note `bool` is a subclass of `int` in Python, so a `bool` value matches the
`(int,float)` annotation. -/
def isinstanceOf : PyVal → SpecType → Bool
  | .str _, .strT => true
  | .int _, .intFloatT => true
  | .float _, .intFloatT => true
  | .bool _, .intFloatT => true
  | .grid, .gridT => true
  | .dict _, .dictT => true
  | .complex _ _, .complexT => true
  | .bool _, .boolT => true
  | .float _, .floatT => true
  | _, _ => false

/-- Python `type(v).__name__` for the modelled values, as used in the
`ValueError` message of `get_DER_arguments`. -/
def pyTypeName : PyVal → String
  | .str _ => "str"
  | .int _ => "int"
  | .float _ => "float"
  | .bool _ => "bool"
  | .complex _ _ => "complex"
  | .dict _ => "dict"
  | .grid => "Grid"
  | .none => "NoneType"

/-- One entry of the argument specification registry:
`{'default_value': ..., 'type': ...}`. A `default_value` of `PyVal.none`
models Python `None`, which `get_DER_arguments` treats as "no default". -/
structure ArgSpec where
  default_value : PyVal
  type : SpecType

/-- `DER_argument_spec` from `pvder/specifications.py` lines 19-34, in source
(insertion) order, for Python 3 where `string_type = (str)`. -/
def DER_argument_spec : List (String × ArgSpec) :=
  [("derId", ⟨.none, .strT⟩),
   ("powerRating", ⟨.none, .intFloatT⟩),
   ("VrmsRating", ⟨.none, .intFloatT⟩),
   ("Vdcrated", ⟨.none, .intFloatT⟩),
   ("gridModel", ⟨.none, .gridT⟩),
   ("verbosity", ⟨.str "INFO", .strT⟩),
   ("identifier", ⟨.str "", .strT⟩),
   ("derConfig", ⟨.dict [], .dictT⟩),
   ("gridVoltagePhaseA", ⟨.none, .complexT⟩),
   ("gridVoltagePhaseB", ⟨.none, .complexT⟩),
   ("gridVoltagePhaseC", ⟨.none, .complexT⟩),
   ("gridFrequency", ⟨.none, .intFloatT⟩),
   ("standAlone", ⟨.bool true, .boolT⟩),
   ("steadyStateInitialization", ⟨.bool true, .boolT⟩),
   ("allowUnbalancedM", ⟨.bool false, .boolT⟩),
   ("ia0", ⟨.none, .complexT⟩),
   ("xa0", ⟨.none, .complexT⟩),
   ("ua0", ⟨.none, .complexT⟩),
   ("xDC0", ⟨.none, .floatT⟩),
   ("xP0", ⟨.none, .floatT⟩),
   ("xQ0", ⟨.none, .floatT⟩)]

/-- Association-list lookup: Python `d[k]` / `k in d` on an ordered dict. -/
def lookupKey (l : List (String × PyVal)) (k : String) : Option PyVal :=
  (l.find? (fun kv => kv.1 == k)).map (fun kv => kv.2)

/-- Errors raised by `get_DER_arguments` (`pvder/DER_components.py` lines
141-167): `typeMismatch` is the `ValueError('Found {key} to have type:{found}
- Valid type:{expected}')`; `keyError` is the Python `KeyError` raised by the
subscript `kwargs[key]` on line 157 when `key` is absent from `kwargs`. -/
inductive MergeErr where
  | typeMismatch (key found : String) (expected : SpecType)
  | keyError (key : String)
deriving DecidableEq, Repr

/-- The per-key body of the loop in `get_DER_arguments`
(`pvder/DER_components.py` lines 148-163). In the `elif key in DER_config`
branch the source evaluates `isinstance(kwargs[key], ...)` (line 157); since
that branch is only reached when `key` is not in `kwargs`, the subscript
`kwargs[key]` raises `KeyError` before any type check happens. -/
def mergeArgStep (DER_config kwargs : List (String × PyVal)) (key : String)
    (spec : ArgSpec) : Except MergeErr (List (String × PyVal)) :=
  match lookupKey kwargs key with
  | some v =>
      if isinstanceOf v spec.type then .ok [(key, v)]
      else .error (.typeMismatch key (pyTypeName v) spec.type)
  | .none =>
      match lookupKey DER_config key with
      | some _ => .error (.keyError key)
      | .none =>
          if !spec.default_value.isNone then .ok [(key, spec.default_value)]
          else .ok []

/-- The loop of `get_DER_arguments` over a specification list, producing the
merged `DER_arguments` dictionary in specification order. -/
def mergeArgs (spec : List (String × ArgSpec))
    (DER_config kwargs : List (String × PyVal)) :
    Except MergeErr (List (String × PyVal)) :=
  match spec with
  | [] => .ok []
  | (key, entry) :: rest =>
      match mergeArgStep DER_config kwargs key entry with
      | .error err => .error err
      | .ok head =>
          match mergeArgs rest DER_config kwargs with
          | .error err => .error err
          | .ok tail => .ok (head ++ tail)

/-- `SolarPVDER.get_DER_arguments` (`pvder/DER_components.py` lines 141-167):
iterate over `DER_argument_spec`, taking the kwargs value (type-checked), else
the config value, else the non-`None` default. -/
def get_DER_arguments (DER_config kwargs : List (String × PyVal)) :
    Except MergeErr (List (String × PyVal)) :=
  mergeArgs DER_argument_spec DER_config kwargs

/-- The configuration-preparation loop of `SolarPVDER.setup_DER`
(`pvder/DER_components.py` lines 65-69): for every component of the design
template, if the component key is absent from the configuration dictionary,
`DER_config.update({DER_component:{}})` inserts an empty section in place.
Python `dict.update` appends a new key at the end of the insertion order. -/
def ensure_sections (templateKeys : List String)
    (config : List (String × PyVal)) : List (String × PyVal) :=
  templateKeys.foldl
    (fun cfg k =>
      if (cfg.map Prod.fst).contains k then cfg else cfg ++ [(k, PyVal.dict [])])
    config

/-- Error raised by `SolarPVDER.get_DER_config`
(`pvder/DER_components.py` line 109): `KeyError('DER configuration with
ID:{derId} could not be found ...! - Available IDs are:{available_ids}')`. -/
inductive ConfigErr where
  | configNotFound (derId : String) (available_ids : List String)
deriving DecidableEq, Repr

/-- `SolarPVDER.get_DER_config` (`pvder/DER_components.py` lines 100-111):
look `derId` up in the key set of the configuration dictionary read from the
backing store; raise `KeyError` listing the available IDs if absent, else
return `config_dict[derId]`. The store is the association list the source's
`read_config` returns. -/
def get_DER_config {α : Type} (config_dict : List (String × α))
    (derId : String) : Except ConfigErr α :=
  let available_ids := config_dict.map Prod.fst
  if available_ids.contains derId then
    match config_dict.find? (fun kv => kv.1 == derId) with
    | some kv => .ok kv.2
    | .none => .error (.configNotFound derId available_ids)
  else .error (.configNotFound derId available_ids)

/-- The `basic_specs` block of a DER design template
(`templates.DER_design_template[model_type]['basic_specs']`): declared phase
count, phase-name list, and ODE count. -/
structure TemplateBasicSpecs where
  n_phases : ℕ
  phases : List String
  n_ODE : ℕ
deriving DecidableEq, Repr

/-- One DER design template entry: its `basic_specs` block and its
`initial_states` vector. Only the fields `check_basic_specs` reads are
modelled. -/
structure DERTemplate where
  basic_specs : TemplateBasicSpecs
  initial_states : List ℚ
deriving DecidableEq, Repr

/-- The fields of `self.DER_config['basic_specs']` that
`check_basic_specs` reads: the configuration's phase and ODE counts. -/
structure ConfigBasicSpecs where
  n_phases : ℕ
  n_ODE : ℕ
deriving DecidableEq, Repr

/-- The `ValueError`s raised by `SolarPVDER.check_basic_specs`
(`pvder/DER_components.py` lines 217-238), one constructor per `raise` site,
carrying the data its message formats (beyond the instance name and
parameter ID). -/
inductive BasicSpecsErr where
  | invalidPhaseCount (n_phases : ℕ) (model_type : String)
  | invalidPhaseList (n_phases : ℕ) (template_phases_len : ℕ)
  | invalidODECount (n_ODE : ℕ) (model_type : String)
  | invalidStateCount (n_ODE : ℕ) (template_states_len : ℕ) (model_type : String)
  | invalidModelClass (model_type : String)
deriving DecidableEq, Repr

/-- Template registry lookup: Python `model_type in DER_design_template` /
`DER_design_template[model_type]`. -/
def lookupTemplate (registry : List (String × DERTemplate)) (model_type : String) :
    Option DERTemplate :=
  (registry.find? (fun kv => kv.1 == model_type)).map (fun kv => kv.2)

/-- `SolarPVDER.check_basic_specs` (`pvder/DER_components.py` lines 217-238),
parameterized by the template registry `templates.DER_design_template` (whose
data lives outside these two source files): check the configuration's phase
count against the template's phase count and phase-name-list length, and the
configuration's ODE count against the template's ODE count and initial-state
length; an unknown model type is an invalid model class. -/
def check_basic_specs (registry : List (String × DERTemplate))
    (DER_model_type : String) (cfg : ConfigBasicSpecs) :
    Except BasicSpecsErr Unit :=
  match lookupTemplate registry DER_model_type with
  | some tmpl =>
      if cfg.n_phases ≠ tmpl.basic_specs.n_phases then
        .error (.invalidPhaseCount cfg.n_phases DER_model_type)
      else if cfg.n_phases ≠ tmpl.basic_specs.phases.length then
        .error (.invalidPhaseList cfg.n_phases tmpl.basic_specs.phases.length)
      else if cfg.n_ODE ≠ tmpl.basic_specs.n_ODE then
        .error (.invalidODECount cfg.n_ODE DER_model_type)
      else if cfg.n_ODE ≠ tmpl.initial_states.length then
        .error (.invalidStateCount cfg.n_ODE tmpl.initial_states.length DER_model_type)
      else .ok ()
  | .none => .error (.invalidModelClass DER_model_type)

/-- The merged result of `get_DER_arguments` on empty config and kwargs:
only the keys with non-`None` defaults appear. -/
def emptyMergeResult : List (String × PyVal) :=
  [("verbosity", PyVal.str "INFO"), ("identifier", PyVal.str ""),
   ("derConfig", PyVal.dict []), ("standAlone", PyVal.bool true),
   ("steadyStateInitialization", PyVal.bool true),
   ("allowUnbalancedM", PyVal.bool false)]

/-- A one-entry template registry used to instantiate the C5 theorem. -/
def exampleRegistry : List (String × DERTemplate) :=
  [("SolarPV_DER_SinglePhase",
    ⟨⟨1, ["a"], 11⟩, List.replicate 11 (0 : ℚ)⟩)]

namespace PVModule

/-- `PVModule.USE_POLYNOMIAL_MPP` (`pvder/DER_components.py` line 259). -/
def USE_POLYNOMIAL_MPP : Bool := true

/-- `PVModule._S_min` (`pvder/DER_components.py` line 262). -/
def _S_min : ℚ := 10.0

/-- `PVModule._S_max` (`pvder/DER_components.py` line 264). -/
def _S_max : ℚ := 100.0

/-- `PVModule.Iscr` (`pvder/DER_components.py` line 266): cell short-circuit
current at reference temperature and radiation. -/
def Iscr : ℚ := 8.03

/-- `PVModule.Kv` (`pvder/DER_components.py` line 267): short-circuit current
temperature coefficient. -/
def Kv : ℚ := 0.0017

/-- `PVModule.T0` (`pvder/DER_components.py` line 268): cell reference
temperature in kelvin. -/
def T0 : ℚ := 273.15 + 25.0

/-- `PVModule.Irs` (`pvder/DER_components.py` line 269): cell reverse
saturation current. -/
def Irs : ℚ := 1.2e-7

/-- `PVModule.q` (`pvder/DER_components.py` line 270): charge of an electron. -/
def q : ℚ := 1.602e-19

/-- `PVModule.k` (`pvder/DER_components.py` line 271): Boltzmann's constant. -/
def k : ℚ := 1.38e-23

/-- `PVModule.A` (`pvder/DER_components.py` line 272): p-n junction ideality
factor. -/
def A : ℚ := 1.92

/-- Per-device PV module parameters looked up by `initialize_module_parameters`. -/
structure ModuleParams where
  Np : ℚ
  Ns : ℚ
  Vdcmpp0 : ℚ
  Vdcmpp_min : ℚ
  Vdcmpp_max : ℚ
deriving DecidableEq, Repr

/-- Modelled from the spec: the static PV module parameter table
`module_parameters` that `initialize_module_parameters` reads is defined
outside the two embedded source files (in `pvder/DER_components.py` it
appears only inside a comment block, lines 275-278). Per the spec, it maps a
device ID to `{Np, Ns, Vdcmpp0, Vdcmpp_min, Vdcmpp_max}`; device ID "10" has
Np=2, Ns=1000, Vdcmpp0=750. Values below follow the source's comment block,
which agrees with the spec's end-to-end example. -/
def module_parameters : List (String × ModuleParams) :=
  [("1", ⟨2, 500, 250.0, 225.0, 300.0⟩),
   ("10", ⟨2, 1000, 750.0, 650.0, 800.0⟩),
   ("50", ⟨11, 735, 550.0, 520.0, 650.0⟩),
   ("250", ⟨45, 1000, 750.0, 750.0, 1000.0⟩)]

/-- The `ValueError` raised by `PVModule.initialize_module_parameters`
(`pvder/DER_components.py` line 370): `'PV module parameters not available
for parameter ID {parameter_ID}'`. -/
inductive PVErr where
  | parametersNotFound (parameter_ID : String)
deriving DecidableEq, Repr

/-- Parameter table lookup: Python `parameter_ID in module_parameters` /
`module_parameters[parameter_ID]`. -/
def lookupParams (table : List (String × ModuleParams)) (pid : String) :
    Option ModuleParams :=
  (table.find? (fun kv => kv.1 == pid)).map (fun kv => kv.2)

/-- `PVModule.initialize_module_parameters` (`pvder/DER_components.py` lines
358-370): copy the five per-device parameters out of the table, or raise
naming the parameter ID. -/
def initialize_module_parameters (parameter_ID : String) :
    Except PVErr ModuleParams :=
  match lookupParams module_parameters parameter_ID with
  | some p => .ok p
  | .none => .error (.parametersNotFound parameter_ID)

/-- The mutable per-instance state of `PVModule`: the per-device parameters
set by `initialize_module_parameters`, the operating point
(`Sinsol`, `Tactual`), the instance's `_MPP_fit_points`, and the MPP
polynomial coefficient vector `z` (empty until `fit_MPP_poly` stores it).
The cached `Iph`/`Ipv` attributes are not separate state: the source
recomputes them from `Sinsol`/`Tactual` before every read. -/
structure PVModuleState where
  Np : ℚ
  Ns : ℚ
  Vdcmpp0 : ℚ
  Vdcmpp_min : ℚ
  Vdcmpp_max : ℚ
  Sinsol : ℚ
  Tactual : ℚ
  MPP_fit_points : ℕ
  z : List ℚ
deriving DecidableEq, Repr

/-- `PVModule.Iph_calc` (`pvder/DER_components.py` lines 312-315):
photocurrent from a single cell,
`(Iscr + Kv·(Tactual − T0))·(Sinsol/100.0)`. -/
def Iph_calc (s : PVModuleState) : ℚ :=
  (Iscr + Kv * (s.Tactual - T0)) * (s.Sinsol / 100.0)

/-- The PV module current `self.Ipv` computed inside `PVModule.Ppv_calc`
(`pvder/DER_components.py` line 328):
`Np·Iph − Np·Irs·(exp(q·Vdc/(k·Tactual·A·Ns)) − 1)` with `Iph` freshly
recomputed by `Iph_calc`. The transcendental `math.exp` (a floating-point
library routine) is passed in as the function `ex`. -/
def Ipv_calc (ex : ℚ → ℚ) (s : PVModuleState) (Vdc_actual : ℚ) : ℚ :=
  s.Np * Iph_calc s -
    s.Np * Irs * (ex ((q * Vdc_actual) / (k * s.Tactual * A * s.Ns)) - 1)

/-- `PVModule.Ppv_calc` (`pvder/DER_components.py` lines 317-330): PV panel
power output in per-unit, `max(0, Ipv·Vdc_actual)/Sbase`. `Sbase` is
`BaseValues.Sbase`, an external collaborator constant, passed in. -/
def Ppv_calc (ex : ℚ → ℚ) (Sbase : ℚ) (s : PVModuleState) (Vdc_actual : ℚ) : ℚ :=
  max 0 (Ipv_calc ex s Vdc_actual * Vdc_actual) / Sbase

/-- `np.linspace(start, stop, num)`: `num` points from `start` to `stop`
inclusive, equally spaced. -/
def linspace (start stop : ℚ) (num : ℕ) : List ℚ :=
  (List.range num).map
    (fun i : ℕ => start + (stop - start) * (i : ℚ) / ((num : ℚ) - 1))

/-- The sampling loop of `PVModule.fit_MPP_poly` (`pvder/DER_components.py`
lines 344-351): for each insolation sample `S`, set `self.Sinsol = S`,
evaluate the `Vdcmpp` property (the fsolve-based MPP voltage, passed in as
`vdcmpp` since `scipy.optimize.fsolve` is an external floating-point
iterative solver) and `Ppv_calc(self.Vdcmpp)*Sbase`, and accumulate the
three lists `_Sinsol_list`, `_Vdcmpp_list`, `_Ppvmpp_list`. Returns the
state after the loop and the three lists. -/
def fit_MPP_loop (ex : ℚ → ℚ) (Sbase : ℚ) (vdcmpp : PVModuleState → ℚ) :
    PVModuleState → List ℚ → PVModuleState × List ℚ × List ℚ × List ℚ
  | s, [] => (s, [], [], [])
  | s, S :: rest =>
      let s1 := { s with Sinsol := S }
      let _Vdcmpp := vdcmpp s1
      let _Ppvmpp := Ppv_calc ex Sbase s1 (vdcmpp s1) * Sbase
      let r := fit_MPP_loop ex Sbase vdcmpp s1 rest
      (r.1, S :: r.2.1, _Vdcmpp :: r.2.2.1, _Ppvmpp :: r.2.2.2)

/-- `PVModule.fit_MPP_poly` (`pvder/DER_components.py` lines 334-356): set
`self.Tactual = 298.15` and `self._MPP_fit_points = 10`, sample
`np.linspace(_S_min, _S_max, _MPP_fit_points+1)`, run the sampling loop, and
store `self.z = np.polyfit(_Sinsol_list, _Vdcmpp_list, 3)`. `np.polyfit`
(floating-point least squares) is passed in as `polyfit`; its numpy contract
returns `deg+1` coefficients, highest degree first. -/
def fit_MPP_poly (ex : ℚ → ℚ) (Sbase : ℚ) (vdcmpp : PVModuleState → ℚ)
    (polyfit : List ℚ → List ℚ → ℕ → List ℚ) (s : PVModuleState) :
    PVModuleState :=
  let s0 := { s with Tactual := 298.15, MPP_fit_points := 10 }
  let _Srange := linspace _S_min _S_max (s0.MPP_fit_points + 1)
  let r := fit_MPP_loop ex Sbase vdcmpp s0 _Srange
  { r.1 with z := polyfit r.2.1 r.2.2.1 3 }

/-- `PVModule.__init__` (`pvder/DER_components.py` lines 282-300):
`initialize_module_parameters()` (fatal on lookup failure), set the initial
operating point (`Sinsol` from the argument, `Tactual` from
`defaults.Tactual`, a module outside the embedded files, passed in as
`Tactual_default`), then `fit_MPP_poly()` when `MPPT_ENABLE and
USE_POLYNOMIAL_MPP`. The class attribute `_MPP_fit_points` starts at 50
(line 260). `MPPT_ENABLE` is set by code outside the embedded files and is
passed in. -/
def pvmodule_init (ex : ℚ → ℚ) (Sbase : ℚ) (vdcmpp : PVModuleState → ℚ)
    (polyfit : List ℚ → List ℚ → ℕ → List ℚ) (MPPT_ENABLE : Bool)
    (parameter_ID : String) (Sinsol Tactual_default : ℚ) :
    Except PVErr PVModuleState := do
  let p ← initialize_module_parameters parameter_ID
  let s : PVModuleState :=
    { Np := p.Np, Ns := p.Ns, Vdcmpp0 := p.Vdcmpp0,
      Vdcmpp_min := p.Vdcmpp_min, Vdcmpp_max := p.Vdcmpp_max,
      Sinsol := Sinsol, Tactual := Tactual_default,
      MPP_fit_points := 50, z := [] }
  let s := if MPPT_ENABLE && USE_POLYNOMIAL_MPP then
      fit_MPP_poly ex Sbase vdcmpp polyfit s
    else s
  pure s

/-- A concrete module state for device ID "10" at full insolation and the
fitting temperature, used to instantiate universally quantified theorems. -/
def exampleState : PVModuleState :=
  { Np := 2, Ns := 1000, Vdcmpp0 := 750.0, Vdcmpp_min := 650.0,
    Vdcmpp_max := 800.0, Sinsol := 100.0, Tactual := 298.15,
    MPP_fit_points := 50, z := [] }

/-- A concrete module state at insolation 100 and the reference temperature. -/
def exampleStateT0 : PVModuleState :=
  { exampleState with Tactual := T0 }

/-- The module state produced by constructing device "10" with the MPPT flag
on, a trivial solver and a zero-coefficient fitting routine: used to
instantiate the construction theorems. -/
def initState10 : PVModuleState :=
  { Np := 2, Ns := 1000, Vdcmpp0 := 750.0, Vdcmpp_min := 650.0,
    Vdcmpp_max := 800.0, Sinsol := 100, Tactual := 298.15,
    MPP_fit_points := 10, z := [0, 0, 0, 0] }

end PVModule

end PVDER

namespace PVDER

open PVModule

/-- C7: `Ppv_calc` returns `max(0, Ipv·Vdc)/Sbase` where `Ipv` is the panel
current at `Vdc`; hence for a positive power base the result is never
negative, and at zero DC voltage the power is zero for any insolation and
temperature held in the state. -/
theorem Ppv_calc_max_floor_nonneg (ex : ℚ → ℚ) (Sbase : ℚ) (s : PVModuleState)
    (Vdc : ℚ) :
    Ppv_calc ex Sbase s Vdc = max 0 (Ipv_calc ex s Vdc * Vdc) / Sbase
      ∧ (0 < Sbase → 0 ≤ Ppv_calc ex Sbase s Vdc)
      ∧ Ppv_calc ex Sbase s 0 = 0 := by
  refine ⟨rfl, fun hS => ?_, ?_⟩
  · exact div_nonneg (le_max_left 0 _) hS.le
  · simp [Ppv_calc]

/-- Witness for C7 at the device-"10" state with power base 1 and DC voltage
5. -/
theorem Ppv_calc_max_floor_nonneg_witness :
    0 ≤ Ppv_calc (fun t => t) 1 exampleState 5 :=
  (Ppv_calc_max_floor_nonneg (fun t => t) 1 exampleState 5).2.1 one_pos

/-- C8: `Iph_calc` returns `(Iscr + Kv·(Tactual − T0))·(Sinsol/100)` for every
insolation and temperature (no clamping of out-of-range insolation), and at
insolation 100 and reference temperature it returns exactly `Iscr`. -/
theorem Iph_calc_linear_scaling (s : PVModuleState) :
    Iph_calc s = (Iscr + Kv * (s.Tactual - T0)) * (s.Sinsol / 100.0)
      ∧ (s.Sinsol = 100.0 → s.Tactual = T0 → Iph_calc s = Iscr) := by
  refine ⟨rfl, fun hS hT => ?_⟩
  rw [Iph_calc, hS, hT]
  norm_num

/-- Witness for C8 at insolation 100 and reference temperature: the
photocurrent is exactly the rated short-circuit current. -/
theorem Iph_calc_linear_scaling_witness : Iph_calc exampleStateT0 = Iscr :=
  (Iph_calc_linear_scaling exampleStateT0).2 rfl rfl

/-- C1: evaluation of `get_DER_arguments` at a configuration that supplies
`verbosity` (a correctly typed string) while the kwargs do not. Instead of
type-checking and returning the config value, the source's line 157
subscripts `kwargs[key]` in the config branch, so the call raises `KeyError`
for the key. -/
theorem get_DER_arguments_config_branch_key_error :
    get_DER_arguments [("verbosity", PyVal.str "DEBUG")] [] =
      .error (.keyError "verbosity") := rfl

/-- C6: `get_DER_config` fails for an ID absent from the store with an error
listing exactly the store's available IDs, and for an ID present in the
store it returns that ID's configuration without error. -/
theorem get_DER_config_found_iff {α : Type} (store : List (String × α))
    (derId : String) :
    (derId ∉ store.map Prod.fst →
      get_DER_config store derId =
        .error (.configNotFound derId (store.map Prod.fst)))
    ∧ (derId ∈ store.map Prod.fst →
      ∃ kv, store.find? (fun kv => kv.1 == derId) = some kv ∧ kv.1 = derId ∧
        get_DER_config store derId = .ok kv.2) := by
  constructor
  · intro h
    unfold get_DER_config
    rw [if_neg]
    simpa using h
  · intro h
    have hex : ∃ kv ∈ store, (fun kv : String × α => kv.1 == derId) kv := by
      obtain ⟨kv, hkv, hfst⟩ := List.mem_map.mp h
      exact ⟨kv, hkv, by simp [hfst]⟩
    obtain ⟨kv, hfind⟩ :=
      Option.isSome_iff_exists.mp (List.find?_isSome.mpr hex)
    have hkey : kv.1 = derId := by
      simpa using List.find?_some hfind
    refine ⟨kv, hfind, hkey, ?_⟩
    unfold get_DER_config
    rw [if_pos (by simpa using h), hfind]

/-- Witness for C6: ID "20" is absent from a store with IDs ["1", "10"], and
the error lists exactly those IDs; ID "10" is found. -/
theorem get_DER_config_found_iff_witness :
    get_DER_config [("1", (1 : ℕ)), ("10", 2)] "20" =
      .error (.configNotFound "20" ["1", "10"]) :=
  (get_DER_config_found_iff [("1", (1 : ℕ)), ("10", 2)] "20").1 (by simp)

/-- C9: for a parameter ID absent from the static PV module parameter table,
`initialize_module_parameters` fails naming that ID, and `PVModule`
construction propagates the failure, producing no module state. -/
theorem pvmodule_init_parameters_not_found (ex : ℚ → ℚ) (Sbase : ℚ)
    (vdcmpp : PVModuleState → ℚ) (polyfit : List ℚ → List ℚ → ℕ → List ℚ)
    (MPPT_ENABLE : Bool) (pid : String) (Sinsol Tdef : ℚ) :
    pid ∉ module_parameters.map Prod.fst →
    initialize_module_parameters pid = .error (.parametersNotFound pid)
    ∧ pvmodule_init ex Sbase vdcmpp polyfit MPPT_ENABLE pid Sinsol Tdef =
        .error (.parametersNotFound pid) := by
  intro h
  have hfind : module_parameters.find? (fun kv => kv.1 == pid) = Option.none := by
    rw [List.find?_eq_none]
    intro kv hkv
    simp only [beq_iff_eq]
    exact fun hfst => h (List.mem_map.mpr ⟨kv, hkv, hfst⟩)
  have hinit : initialize_module_parameters pid =
      .error (.parametersNotFound pid) := by
    unfold initialize_module_parameters lookupParams
    rw [hfind]
    rfl
  exact ⟨hinit, by simp [pvmodule_init, hinit, Except.bind]⟩

/-- Witness for C9 at parameter ID "2", which is not in the table. -/
theorem pvmodule_init_parameters_not_found_witness :
    pvmodule_init (fun t => t) 1 (fun s => s.Vdcmpp0)
        (fun _ _ d => List.replicate (d + 1) 0) true "2" 100 300 =
      .error (.parametersNotFound "2") :=
  (pvmodule_init_parameters_not_found (fun t => t) 1 (fun s => s.Vdcmpp0)
    (fun _ _ d => List.replicate (d + 1) 0) true "2" 100 300 (by simp [module_parameters])).2

/-- The sampling loop threads the module state through the samples without
touching `Tactual`. -/
lemma fit_MPP_loop_fst_Tactual (ex : ℚ → ℚ) (Sbase : ℚ)
    (vdcmpp : PVModuleState → ℚ) (l : List ℚ) (s : PVModuleState) :
    (fit_MPP_loop ex Sbase vdcmpp s l).1.Tactual = s.Tactual := by
  induction l generalizing s with
  | nil => rfl
  | cons S rest ih => simpa [fit_MPP_loop] using ih { s with Sinsol := S }

/-- The sampling loop records exactly the insolation samples it was given. -/
lemma fit_MPP_loop_samples (ex : ℚ → ℚ) (Sbase : ℚ)
    (vdcmpp : PVModuleState → ℚ) (l : List ℚ) (s : PVModuleState) :
    (fit_MPP_loop ex Sbase vdcmpp s l).2.1 = l := by
  induction l generalizing s with
  | nil => rfl
  | cons S rest ih => simp [fit_MPP_loop, ih]

/-- The MPP voltages the loop records are `vdcmpp` evaluated at the loop
state with only `Sinsol` changed to the sample: in particular all at the
state's `Tactual`. -/
lemma fit_MPP_loop_vdcmpps (ex : ℚ → ℚ) (Sbase : ℚ)
    (vdcmpp : PVModuleState → ℚ) (l : List ℚ) (s : PVModuleState) :
    (fit_MPP_loop ex Sbase vdcmpp s l).2.2.1 =
      l.map (fun S => vdcmpp { s with Sinsol := S }) := by
  induction l generalizing s with
  | nil => rfl
  | cons S rest ih => simp [fit_MPP_loop, ih]

/-- The panel powers the loop records are `Ppv_calc` (rescaled by `Sbase`)
evaluated at the loop state with only `Sinsol` changed to the sample. -/
lemma fit_MPP_loop_ppvs (ex : ℚ → ℚ) (Sbase : ℚ)
    (vdcmpp : PVModuleState → ℚ) (l : List ℚ) (s : PVModuleState) :
    (fit_MPP_loop ex Sbase vdcmpp s l).2.2.2 =
      l.map (fun S =>
        Ppv_calc ex Sbase { s with Sinsol := S }
          (vdcmpp { s with Sinsol := S }) * Sbase) := by
  induction l generalizing s with
  | nil => rfl
  | cons S rest ih => simp [fit_MPP_loop, ih]

/-- C10: `fit_MPP_poly` permanently overwrites the module's cell temperature:
after it returns, `Tactual` is the fixed fitting temperature 298.15 K
whatever the temperature before the fit; and after `PVModule` construction
with the MPPT flag enabled (the polynomial option being on), the module's
`Tactual` is 298.15 K regardless of the configured default temperature, so
every subsequent photocurrent computation uses 298.15 K. -/
theorem fit_MPP_poly_overwrites_Tactual (ex : ℚ → ℚ) (Sbase : ℚ)
    (vdcmpp : PVModuleState → ℚ) (polyfit : List ℚ → List ℚ → ℕ → List ℚ)
    (s : PVModuleState) :
    (fit_MPP_poly ex Sbase vdcmpp polyfit s).Tactual = 298.15
    ∧ (∀ pid Sins Tdef s',
        pvmodule_init ex Sbase vdcmpp polyfit true pid Sins Tdef = .ok s' →
        s'.Tactual = 298.15
        ∧ Iph_calc s' = (Iscr + Kv * ((298.15 : ℚ) - T0)) * (s'.Sinsol / 100.0)) := by
  have hfit : ∀ s₀ : PVModuleState,
      (fit_MPP_poly ex Sbase vdcmpp polyfit s₀).Tactual = 298.15 := by
    intro s₀
    have := fit_MPP_loop_fst_Tactual ex Sbase vdcmpp
      (linspace _S_min _S_max (10 + 1))
      { s₀ with Tactual := 298.15, MPP_fit_points := 10 }
    simpa [fit_MPP_poly] using this
  refine ⟨hfit s, fun pid Sins Tdef s' h => ?_⟩
  cases hp : initialize_module_parameters pid with
  | error e => simp [pvmodule_init, hp, Except.bind] at h
  | ok p =>
      simp [pvmodule_init, hp, Except.bind, USE_POLYNOMIAL_MPP] at h
      have hT : s'.Tactual = 298.15 := by rw [← h]; exact hfit _
      exact ⟨hT, by rw [Iph_calc, hT]⟩

/-- Witness for C10: constructing device "10" with default temperature 300 K
succeeds and leaves the module at 298.15 K. -/
theorem fit_MPP_poly_overwrites_Tactual_witness :
    pvmodule_init (fun t => t) 1 (fun s => s.Vdcmpp0)
        (fun _ _ d => List.replicate (d + 1) 0) true "10" 100 300 =
      .ok initState10
    ∧ initState10.Tactual = 298.15 := by
  have h : pvmodule_init (fun t => t) 1 (fun s => s.Vdcmpp0)
      (fun _ _ d => List.replicate (d + 1) 0) true "10" 100 300 =
      .ok initState10 := by
    norm_num [pvmodule_init, initialize_module_parameters, lookupParams,
      module_parameters, fit_MPP_poly, linspace, List.range_succ, fit_MPP_loop,
      USE_POLYNOMIAL_MPP, List.find?, List.replicate, _S_max, _S_min,
      initState10]
    simp
  exact ⟨h, ((fit_MPP_poly_overwrites_Tactual (fun t => t) 1
    (fun s => s.Vdcmpp0) (fun _ _ d => List.replicate (d + 1) 0)
    initState10).2 "10" 100 300 initState10 h).1⟩

/-- C5: `check_basic_specs` succeeds iff the model type is in the template
registry and the configuration's phase count equals the template's declared
phase count and phase-name-list length while the configuration's ODE count
equals the template's declared ODE count and initial-state-vector length;
each single mismatch deterministically produces the error naming that field,
and an unknown model type produces the invalid-model-class error. -/
theorem check_basic_specs_iff (registry : List (String × DERTemplate))
    (mt : String) (cfg : ConfigBasicSpecs) :
    (check_basic_specs registry mt cfg = .ok () ↔
      ∃ t, lookupTemplate registry mt = some t
        ∧ cfg.n_phases = t.basic_specs.n_phases
        ∧ cfg.n_phases = t.basic_specs.phases.length
        ∧ cfg.n_ODE = t.basic_specs.n_ODE
        ∧ cfg.n_ODE = t.initial_states.length)
    ∧ (lookupTemplate registry mt = Option.none →
        check_basic_specs registry mt cfg = .error (.invalidModelClass mt))
    ∧ (∀ t, lookupTemplate registry mt = some t →
        cfg.n_phases ≠ t.basic_specs.n_phases →
        check_basic_specs registry mt cfg =
          .error (.invalidPhaseCount cfg.n_phases mt))
    ∧ (∀ t, lookupTemplate registry mt = some t →
        cfg.n_phases = t.basic_specs.n_phases →
        cfg.n_phases ≠ t.basic_specs.phases.length →
        check_basic_specs registry mt cfg =
          .error (.invalidPhaseList cfg.n_phases t.basic_specs.phases.length))
    ∧ (∀ t, lookupTemplate registry mt = some t →
        cfg.n_phases = t.basic_specs.n_phases →
        cfg.n_phases = t.basic_specs.phases.length →
        cfg.n_ODE ≠ t.basic_specs.n_ODE →
        check_basic_specs registry mt cfg =
          .error (.invalidODECount cfg.n_ODE mt))
    ∧ (∀ t, lookupTemplate registry mt = some t →
        cfg.n_phases = t.basic_specs.n_phases →
        cfg.n_phases = t.basic_specs.phases.length →
        cfg.n_ODE = t.basic_specs.n_ODE →
        cfg.n_ODE ≠ t.initial_states.length →
        check_basic_specs registry mt cfg =
          .error (.invalidStateCount cfg.n_ODE t.initial_states.length mt)) := by
  cases hl : lookupTemplate registry mt with
  | none => simp [check_basic_specs, hl]
  | some t =>
      simp only [check_basic_specs, hl]
      split_ifs with h1 h2 h3 h4 <;> simp_all

/-- Witness for C5: a configuration matching the single-phase template's
declared counts passes the structural check. -/
theorem check_basic_specs_iff_witness :
    check_basic_specs exampleRegistry "SolarPV_DER_SinglePhase" ⟨1, 11⟩ =
      .ok () :=
  (check_basic_specs_iff exampleRegistry "SolarPV_DER_SinglePhase" ⟨1, 11⟩).1.mpr
    ⟨⟨⟨1, ["a"], 11⟩, List.replicate 11 (0 : ℚ)⟩,
      by simp [lookupTemplate, exampleRegistry], rfl, by simp, rfl, by simp⟩

/-- Unfolding one step of the section-ensuring loop. -/
lemma ensure_sections_cons (k : String) (rest : List String)
    (cfg : List (String × PyVal)) :
    ensure_sections (k :: rest) cfg =
      ensure_sections rest
        (if (cfg.map Prod.fst).contains k then cfg
         else cfg ++ [(k, PyVal.dict [])]) := rfl

/-- The section-ensuring loop never shrinks the configuration. -/
lemma ensure_sections_length_le (tmpl : List String) :
    ∀ cfg : List (String × PyVal),
      cfg.length ≤ (ensure_sections tmpl cfg).length := by
  induction tmpl with
  | nil => intro cfg; simp [ensure_sections]
  | cons k rest ih =>
      intro cfg
      rw [ensure_sections_cons]
      by_cases h : (cfg.map Prod.fst).contains k
      · rw [if_pos h]
        exact ih cfg
      · rw [if_neg h]
        calc cfg.length ≤ (cfg ++ [(k, PyVal.dict [])]).length := by simp
          _ ≤ _ := ih (cfg ++ [(k, PyVal.dict [])])

/-- The section-ensuring loop only appends empty sections for template
components, leaving the existing entries untouched. -/
lemma ensure_sections_append (tmpl : List String) :
    ∀ cfg : List (String × PyVal),
      ∃ added, ensure_sections tmpl cfg = cfg ++ added
        ∧ ∀ kv ∈ added, kv.2 = PyVal.dict [] ∧ kv.1 ∈ tmpl := by
  induction tmpl with
  | nil => intro cfg; exact ⟨[], by simp [ensure_sections], by simp⟩
  | cons k rest ih =>
      intro cfg
      rw [ensure_sections_cons]
      by_cases h : (cfg.map Prod.fst).contains k
      · rw [if_pos h]
        obtain ⟨added, heq, hprop⟩ := ih cfg
        exact ⟨added, heq, fun kv hkv =>
          ⟨(hprop kv hkv).1, List.mem_cons_of_mem _ (hprop kv hkv).2⟩⟩
      · rw [if_neg h]
        obtain ⟨added, heq, hprop⟩ := ih (cfg ++ [(k, PyVal.dict [])])
        refine ⟨(k, PyVal.dict []) :: added, by simpa using heq, ?_⟩
        intro kv hkv
        rcases List.mem_cons.mp hkv with h1 | h2
        · exact ⟨by rw [h1], by rw [h1]; exact List.mem_cons_self _ _⟩
        · exact ⟨(hprop kv h2).1, List.mem_cons_of_mem _ (hprop kv h2).2⟩

/-- C2 (amended): the section-ensuring step of `setup_DER` leaves the input
configuration dictionary identical iff every template component is already a
key of it; otherwise it mutates the dictionary, and the mutation consists
exactly of appending an empty section per missing template component, with
all pre-existing keys and values unchanged. -/
theorem ensure_sections_mutates_iff (tmpl : List String)
    (cfg : List (String × PyVal)) :
    (ensure_sections tmpl cfg = cfg ↔ ∀ k ∈ tmpl, k ∈ cfg.map Prod.fst)
    ∧ ∃ added, ensure_sections tmpl cfg = cfg ++ added
        ∧ ∀ kv ∈ added, kv.2 = PyVal.dict [] ∧ kv.1 ∈ tmpl := by
  refine ⟨?_, ensure_sections_append tmpl cfg⟩
  induction tmpl generalizing cfg with
  | nil => simp [ensure_sections]
  | cons k rest ih =>
      rw [ensure_sections_cons]
      by_cases h : (cfg.map Prod.fst).contains k
      · have hk : k ∈ cfg.map Prod.fst := by simpa using h
        rw [if_pos h, ih cfg]
        constructor
        · intro hall k' hk'
          rcases List.mem_cons.mp hk' with h1 | h2
          · rw [h1]; exact hk
          · exact hall k' h2
        · intro hall k' hk'
          exact hall k' (List.mem_cons_of_mem _ hk')
      · have hk : k ∉ cfg.map Prod.fst := by simpa using h
        rw [if_neg h]
        constructor
        · intro heq
          exfalso
          have hle := ensure_sections_length_le rest (cfg ++ [(k, PyVal.dict [])])
          rw [heq] at hle
          simp at hle
        · intro hall
          exact absurd (hall k (List.mem_cons_self _ _)) hk

/-- Witness for C2: a configuration already containing the single template
section is returned unchanged. -/
theorem ensure_sections_mutates_iff_witness :
    ensure_sections ["basic_specs"] [("basic_specs", PyVal.dict [])] =
      [("basic_specs", PyVal.dict [])] :=
  (ensure_sections_mutates_iff ["basic_specs"]
    [("basic_specs", PyVal.dict [])]).1.mpr (by simp)

/-- Counterexample for C2 as stated: passing a configuration lacking the
template section `basic_specs` through the `setup_DER` section-ensuring step
does not leave it identical; an empty section is inserted in place. -/
theorem ensure_sections_counterexample :
    ensure_sections ["basic_specs"] [] = [("basic_specs", PyVal.dict [])]
    ∧ ensure_sections ["basic_specs"] [] ≠ ([] : List (String × PyVal)) :=
  ⟨rfl, by rw [show ensure_sections ["basic_specs"] [] =
      [("basic_specs", PyVal.dict [])] from rfl]; simp⟩

/-- Unfolding one step of `lookupKey`. -/
lemma lookupKey_cons (a : String × PyVal) (t : List (String × PyVal))
    (key : String) :
    lookupKey (a :: t) key =
      if a.1 == key then some a.2 else lookupKey t key := by
  by_cases h : a.1 == key <;> simp [lookupKey, List.find?, h]

/-- A successful merge step contributes either nothing or a single binding
for its own key. -/
lemma mergeArgStep_shape (cfg kw : List (String × PyVal)) (key : String)
    (e : ArgSpec) (head : List (String × PyVal)) :
    mergeArgStep cfg kw key e = .ok head →
    head = [] ∨ ∃ v, head = [(key, v)] := by
  unfold mergeArgStep
  rcases h1 : lookupKey kw key with _ | v
  · rcases h2 : lookupKey cfg key with _ | v
    · by_cases h3 : e.default_value.isNone
      · intro h
        simp [h3] at h
        exact Or.inl h
      · intro h
        simp [h3] at h
        exact Or.inr ⟨e.default_value, h.symm⟩
    · intro h
      simp at h
  · by_cases h2 : isinstanceOf v e.type
    · intro h
      simp [h2] at h
      exact Or.inr ⟨v, h.symm⟩
    · intro h
      simp [h2] at h

/-- A merge step for a key absent from both sources whose default is `None`
contributes nothing. -/
lemma mergeArgStep_defaultless (cfg kw : List (String × PyVal)) (key : String)
    (e : ArgSpec) :
    lookupKey kw key = Option.none → lookupKey cfg key = Option.none →
    e.default_value = PyVal.none →
    mergeArgStep cfg kw key e = .ok [] := by
  intro hkw hcfg he
  unfold mergeArgStep
  rw [hkw, hcfg, he]
  simp [PyVal.isNone]

/-- A key whose every specification entry has default `None` and which is
absent from both kwargs and config is absent from a successful merge
result. -/
lemma mergeArgs_omits_defaultless (spec : List (String × ArgSpec)) :
    ∀ (cfg kw res : List (String × PyVal)) (key : String),
    lookupKey kw key = Option.none → lookupKey cfg key = Option.none →
    (∀ e : ArgSpec, (key, e) ∈ spec → e.default_value = PyVal.none) →
    mergeArgs spec cfg kw = .ok res → lookupKey res key = Option.none := by
  induction spec with
  | nil =>
      intro cfg kw res key _ _ _ hm
      simp only [mergeArgs, Except.ok.injEq] at hm
      rw [← hm]
      rfl
  | cons kv rest ih =>
      intro cfg kw res key hkw hcfg hspec hm
      obtain ⟨k', e⟩ := kv
      cases hstep : mergeArgStep cfg kw k' e with
      | error e1 => simp [mergeArgs, hstep] at hm
      | ok head =>
          cases hrest : mergeArgs rest cfg kw with
          | error e2 => simp [mergeArgs, hstep, hrest] at hm
          | ok tail =>
              have hres : head ++ tail = res := by
                simpa [mergeArgs, hstep, hrest] using hm
              have htail : lookupKey tail key = Option.none :=
                ih cfg kw tail key hkw hcfg
                  (fun e' he' => hspec e' (List.mem_cons_of_mem _ he')) hrest
              by_cases hk : k' = key
              · subst hk
                have he : e.default_value = PyVal.none :=
                  hspec e (List.mem_cons_self _ _)
                have hhead : mergeArgStep cfg kw k' e = .ok [] :=
                  mergeArgStep_defaultless cfg kw k' e hkw hcfg he
                rw [hstep] at hhead
                have h0 : head = [] := (Except.ok.injEq _ _).mp hhead
                rw [← hres, h0]
                simpa using htail
              · rcases mergeArgStep_shape cfg kw k' e head hstep with hh | ⟨v, hh⟩
                · rw [← hres, hh]
                  simpa using htail
                · rw [← hres, hh, List.singleton_append, lookupKey_cons]
                  simp [hk, htail]

/-- C3 (amended): for every specification key whose declared default is the
required marker `None`, if the key is absent from both kwargs and the
configuration, the merge does not fail on its account: it silently omits the
key from the merged result. -/
theorem get_DER_arguments_omits_required (cfg kw res : List (String × PyVal))
    (key : String) :
    lookupKey kw key = Option.none → lookupKey cfg key = Option.none →
    (∀ e : ArgSpec, (key, e) ∈ DER_argument_spec → e.default_value = PyVal.none) →
    get_DER_arguments cfg kw = .ok res → lookupKey res key = Option.none :=
  mergeArgs_omits_defaultless DER_argument_spec cfg kw res key

/-- Witness for C3: the required key `derId`, absent from both sources, is
absent from the successful merge of empty config and kwargs. -/
theorem get_DER_arguments_omits_required_witness :
    lookupKey emptyMergeResult "derId" = Option.none :=
  get_DER_arguments_omits_required [] [] emptyMergeResult "derId" rfl rfl
    (by intro e he; simp [DER_argument_spec] at he; rw [he]) rfl

/-- Counterexample for C3 as stated: with `derId` (a no-default key) absent
from both kwargs and config, the merge does not raise; it returns a merged
result lacking `derId`. -/
theorem get_DER_arguments_required_counterexample :
    get_DER_arguments [] [] = .ok emptyMergeResult
    ∧ lookupKey emptyMergeResult "derId" = Option.none := ⟨rfl, rfl⟩

/-- C4 (amended): `fit_MPP_poly` samples insolation at the 11 (not 10)
equally spaced points `linspace(S_min, S_max, _MPP_fit_points+1)` between
the configured bounds 10 and 100, evaluates the MPP voltage at each sample
with the temperature field held at the fixed value 298.15 K, fits the
samples against the MPP voltages with a degree-3 polynomial fit, and (by the
fitting routine's contract of returning `deg+1` coefficients) stores exactly
4 coefficients. -/
theorem fit_MPP_poly_samples (ex : ℚ → ℚ) (Sbase : ℚ)
    (vdcmpp : PVModuleState → ℚ) (polyfit : List ℚ → List ℚ → ℕ → List ℚ)
    (s : PVModuleState) :
    linspace _S_min _S_max (10 + 1) =
      [10, 19, 28, 37, 46, 55, 64, 73, 82, 91, 100]
    ∧ (linspace _S_min _S_max (10 + 1)).length = 11
    ∧ (fit_MPP_poly ex Sbase vdcmpp polyfit s).z =
        polyfit (linspace _S_min _S_max (10 + 1))
          ((linspace _S_min _S_max (10 + 1)).map
            (fun S => vdcmpp
              { s with Sinsol := S, Tactual := 298.15, MPP_fit_points := 10 })) 3
    ∧ ((∀ x y d, (polyfit x y d).length = d + 1) →
        (fit_MPP_poly ex Sbase vdcmpp polyfit s).z.length = 4) := by
  have hz : (fit_MPP_poly ex Sbase vdcmpp polyfit s).z =
      polyfit (linspace _S_min _S_max (10 + 1))
        ((linspace _S_min _S_max (10 + 1)).map
          (fun S => vdcmpp
            { s with Sinsol := S, Tactual := 298.15, MPP_fit_points := 10 })) 3 := by
    simp [fit_MPP_poly, fit_MPP_loop_samples, fit_MPP_loop_vdcmpps]
  refine ⟨?_, ?_, hz, fun hc => ?_⟩
  · norm_num [linspace, _S_min, _S_max, List.range_succ]
  · unfold linspace
    rw [List.length_map, List.length_range]
  · rw [hz, hc]

/-- Witness for C4: with a fitting routine satisfying the `deg+1`
coefficient contract, the stored coefficient vector has length 4. -/
theorem fit_MPP_poly_samples_witness :
    (fit_MPP_poly (fun t => t) 1 (fun s => s.Vdcmpp0)
        (fun _ _ d => List.replicate (d + 1) 0) exampleState).z.length = 4 :=
  (fit_MPP_poly_samples (fun t => t) 1 (fun s => s.Vdcmpp0)
      (fun _ _ d => List.replicate (d + 1) 0) exampleState).2.2.2
    (fun x y d => by simp)

/-- Counterexample for C4 as stated: passing a fitting routine that returns
its sample-abscissa list unchanged shows the fit is handed 11 insolation
samples, not 10. -/
theorem fit_MPP_poly_samples_counterexample :
    (fit_MPP_poly (fun t => t) 1 (fun s => s.Vdcmpp0)
        (fun x _ _ => x) exampleState).z.length = 11
    ∧ (fit_MPP_poly (fun t => t) 1 (fun s => s.Vdcmpp0)
        (fun x _ _ => x) exampleState).z.length ≠ 10 := by
  have h : (fit_MPP_poly (fun t => t) 1 (fun s => s.Vdcmpp0)
      (fun x _ _ => x) exampleState).z = linspace _S_min _S_max (10 + 1) := by
    simp [fit_MPP_poly, fit_MPP_loop_samples]
  rw [h]
  constructor
  · unfold linspace
    rw [List.length_map, List.length_range]
  · unfold linspace
    rw [List.length_map, List.length_range]
    decide

end PVDER
